import Mathlib

/-!
Shallow embedding of `src/student.py` (Student Management System).

The record store talks to a MySQL database; the database and the
connection are modelled explicitly:

* `DB` is the `students` table state: the list of rows (in insertion
  order) together with the `AUTO_INCREMENT` counter `next_id`
  (see `create_table_if_not_exists`, student.py lines 51-77).
* Each operation takes a flag `ok : Bool` that models whether the
  underlying cursor/commit interaction with the server succeeds; the
  Python code wraps every operation in `try/except Error` and the flag
  selects the branch taken.
* Timestamps are a logical clock `now : Nat` supplied per operation;
  `created_at`/`updated_at` follow the schema defaults
  (`DEFAULT CURRENT_TIMESTAMP` / `ON UPDATE CURRENT_TIMESTAMP`).
* The value each method hands back to its caller is wrapped in
  `Except DBErr _`: `Except.error` would be an exception propagating out
  of the method (the spec's ValidationError/StoreError), `Except.ok` an
  ordinary return.  The Python methods catch `Error` internally, so the
  embedding makes visible which of the two actually happens.
-/

namespace StudentMgmt

/-- The spec's store-boundary error kinds (§7 of the spec): a validation
failure or an operation-level store failure propagating to the caller. -/
inductive DBErr where
  | validation
  | store
  deriving DecidableEq, Repr

/-- One row of the `students` table, per `create_table_if_not_exists`:
`id INT AUTO_INCREMENT PRIMARY KEY`, `name VARCHAR(100) NOT NULL`,
`age INT NOT NULL`, `class VARCHAR(50) NOT NULL`,
`marks DECIMAL(5,2) NOT NULL`, plus the two timestamp columns. -/
structure Student where
  id : Nat
  name : String
  age : Int
  className : String
  marks : Rat
  created_at : Nat
  updated_at : Nat
  deriving DecidableEq, Repr

/-- The `students` table state: rows in insertion order plus the
`AUTO_INCREMENT` counter (MySQL starts it at 1). -/
structure DB where
  rows : List Student
  next_id : Nat
  deriving DecidableEq, Repr

/-- Well-formedness maintained by MySQL for the schema: the counter is at
least 1, every stored id is below the counter, and ids are unique
(`id` is the primary key). -/
def WF (db : DB) : Prop :=
  1 ≤ db.next_id ∧ (∀ r ∈ db.rows, r.id < db.next_id) ∧
    db.rows.Pairwise (fun a b => a.id ≠ b.id)

instance (db : DB) : Decidable (WF db) :=
  inferInstanceAs (Decidable (1 ≤ db.next_id ∧
    (∀ r ∈ db.rows, r.id < db.next_id) ∧
    db.rows.Pairwise (fun a b : Student => a.id ≠ b.id)))

/-- Python truthiness of an `Option Nat` argument (`if student_id:`):
`None` and `0` are falsy. -/
def truthyNat : Option Nat → Bool
  | some i => i != 0
  | none => false

/-- Python truthiness of an `Option String` argument (`if name:`):
`None` and the empty string are falsy. -/
def truthyStr : Option String → Bool
  | some s => s != ""
  | none => false

/-- `charsStart l p` is true when `p` is an initial segment of `l`. -/
def charsStart : List Char → List Char → Bool
  | _, [] => true
  | [], _ :: _ => false
  | a :: as, b :: bs => a == b && charsStart as bs

/-- `charsHasSub l p` is true when `p` occurs contiguously inside `l`. -/
def charsHasSub : List Char → List Char → Bool
  | [], p => charsStart [] p
  | a :: as, p => charsStart (a :: as) p || charsHasSub as p

/-- Case-insensitive substring containment: the model of MySQL's
`name LIKE '%term%'` under the default case-insensitive collation
(student.py lines 283-291). -/
def strHasSub (hay needle : String) : Bool :=
  charsHasSub (hay.toList.map Char.toLower) (needle.toList.map Char.toLower)

/-- Lexicographic order on character lists, the model of the collation
order MySQL uses for `ORDER BY name`. -/
def charsLe : List Char → List Char → Bool
  | [], _ => true
  | _ :: _, [] => false
  | a :: as, b :: bs => if a = b then charsLe as bs else decide (a < b)

/-- Comparison of two rows by `name` (for `ORDER BY name`). -/
def nameLe (a b : Student) : Prop :=
  charsLe a.name.toList b.name.toList = true

instance : DecidableRel nameLe := fun _ _ => instDecidableEqBool _ _

/-- Comparison of two rows by `id` (for `ORDER BY id`). -/
def idLe (a b : Student) : Prop := a.id ≤ b.id

instance : DecidableRel idLe := fun a b => Nat.decLe a.id b.id

/-- `ORDER BY name` (search_students, line 289). -/
def sortByName (l : List Student) : List Student :=
  List.insertionSort nameLe l

/-- `ORDER BY id` (view_all_students, line 224). -/
def sortById (l : List Student) : List Student :=
  List.insertionSort idLe l

/-- `add_student` (student.py lines 79-112).  Arguments are `Option`s so a
Python `None` can be passed for a required column.  The INSERT succeeds
exactly when the connection works and no NOT NULL column receives NULL;
on success the row is appended with `created_at = updated_at = now` and
`cursor.lastrowid` is returned.  Any `Error` is caught, printed, and the
method returns `None` — i.e. `Except.ok none`, never `Except.error`. -/
def add_student (db : DB) (ok : Bool) (now : Nat) (name : Option String)
    (age : Option Int) (class_name : Option String) (marks : Option Rat) :
    DB × Except DBErr (Option Nat) :=
  match ok, name, age, class_name, marks with
  | true, some n, some a, some c, some m =>
    ({ rows := db.rows ++ [⟨db.next_id, n, a, c, m, now, now⟩],
       next_id := db.next_id + 1 },
     Except.ok (some db.next_id))
  | _, _, _, _, _ => (db, Except.ok none)

/-- One `field = %s` assignment of the dynamically built UPDATE. -/
inductive FieldAsg where
  | fname (v : String)
  | fage (v : Int)
  | fcls (v : String)
  | fmarks (v : Rat)
  deriving DecidableEq, Repr

/-- The `update_fields` list built by `update_student` (lines 129-143):
text fields are included when truthy (`if name:`), numeric fields when
not `None` (`if age is not None:`). -/
def buildFields (name : Option String) (age : Option Int)
    (class_name : Option String) (marks : Option Rat) : List FieldAsg :=
  (match name with
   | some s => if s != "" then [FieldAsg.fname s] else []
   | none => []) ++
  (match age with | some a => [FieldAsg.fage a] | none => []) ++
  (match class_name with
   | some s => if s != "" then [FieldAsg.fcls s] else []
   | none => []) ++
  (match marks with | some m => [FieldAsg.fmarks m] | none => [])

/-- Apply one SET assignment to a row. -/
def applyAsg (s : Student) : FieldAsg → Student
  | FieldAsg.fname v => { s with name := v }
  | FieldAsg.fage v => { s with age := v }
  | FieldAsg.fcls v => { s with className := v }
  | FieldAsg.fmarks v => { s with marks := v }

/-- Effect of the UPDATE statement on one row: rows matching the WHERE
clause get the assignments plus the schema's
`ON UPDATE CURRENT_TIMESTAMP` refresh of `updated_at`. -/
def updRow (now : Nat) (asgs : List FieldAsg) (sid : Nat) (s : Student) :
    Student :=
  if s.id = sid then { asgs.foldl applyAsg s with updated_at := now } else s

/-- `update_student` (student.py lines 114-178).  Builds the dynamic
UPDATE; with no fields it returns 0 before touching the connection
(lines 146-148).  Otherwise, if the query succeeds, matching rows are
updated and `cursor.rowcount` (the number of rows matching `id`) is
returned; an `Error` is caught and 0 returned. -/
def update_student (db : DB) (ok : Bool) (now : Nat) (sid : Nat)
    (name : Option String) (age : Option Int) (class_name : Option String)
    (marks : Option Rat) : DB × Except DBErr Nat :=
  let fields := buildFields name age class_name marks
  if fields.isEmpty then (db, Except.ok 0)
  else if ok then
    ({ db with rows := db.rows.map (updRow now fields sid) },
     Except.ok (db.rows.countP (fun s => s.id == sid)))
  else (db, Except.ok 0)

/-- `delete_student` (student.py lines 180-210): DELETE scoped to `id`,
returning `cursor.rowcount`; an `Error` is caught and 0 returned. -/
def delete_student (db : DB) (ok : Bool) (sid : Nat) :
    DB × Except DBErr Nat :=
  if ok then
    ({ db with rows := db.rows.filter (fun s => s.id != sid) },
     Except.ok (db.rows.countP (fun s => s.id == sid)))
  else (db, Except.ok 0)

/-- `view_all_students` (student.py lines 212-253): SELECT ... ORDER BY
id, returning all rows; an `Error` is caught and `[]` returned. -/
def view_all_students (db : DB) (ok : Bool) :
    DB × Except DBErr (List Student) :=
  if ok then (db, Except.ok (sortById db.rows)) else (db, Except.ok [])

/-- `search_students` (student.py lines 255-321).  `if student_id:` takes
the by-id branch only when the id is truthy; `elif search_term:` the LIKE
branch when the term is truthy; otherwise `[]` is returned.  The by-id
SELECT has no ORDER BY; the by-name SELECT orders by `name`.  An `Error`
is caught and `[]` returned. -/
def search_students (db : DB) (ok : Bool) (search_term : Option String)
    (student_id : Option Nat) : DB × Except DBErr (List Student) :=
  if ok then
    if truthyNat student_id then
      (db, Except.ok (db.rows.filter (fun s => s.id == student_id.getD 0)))
    else if truthyStr search_term then
      (db, Except.ok (sortByName (db.rows.filter
        (fun s => strHasSub s.name (search_term.getD "")))))
    else (db, Except.ok [])
  else (db, Except.ok [])

/-- `get_student_count` (student.py lines 323-343): `SELECT COUNT(*)`;
an `Error` is caught and 0 returned. -/
def get_student_count (db : DB) (ok : Bool) : DB × Except DBErr Nat :=
  if ok then (db, Except.ok db.rows.length) else (db, Except.ok 0)

/-- The connection slot `self.connection`: `noConn` is the initial
`None`, `live` a connected handle, `closed` a handle whose
`is_connected()` is false. -/
inductive ConnState where
  | noConn
  | live
  | closed
  deriving DecidableEq, Repr

/-- `close_connection` (student.py lines 345-351): closes only when the
slot holds a connection that `is_connected()`; otherwise does nothing. -/
def close_connection : ConnState → ConnState
  | ConnState.live => ConnState.closed
  | s => s

/-- Whether the connection is still held (not released). -/
def isLive : ConnState → Bool
  | ConnState.live => true
  | _ => false

/-- One candidate connection configuration (host, database, user,
password), as in `setup_database`. -/
structure Config where
  host : String
  database : String
  user : String
  password : String
  deriving DecidableEq, Repr

/-- The hardcoded candidate list of `setup_database` (lines 419-426). -/
def default_configs : List Config :=
  [⟨"localhost", "student_db", "root", ""⟩,
   ⟨"localhost", "student_db", "root", "root"⟩,
   ⟨"127.0.0.1", "student_db", "root", ""⟩]

/-- The environment the bootstrap runs against: whether the first
connect attempt with a config succeeds, whether connecting server-only
and issuing CREATE DATABASE succeeds, and whether the retried connect
succeeds afterwards. -/
structure BootEnv where
  connect1 : Config → Bool
  createdb : Config → Bool
  connect2 : Config → Bool

/-- A candidate succeeds when its first connect works, or the database
creation works and the retried connect works. -/
def succeedsB (env : BootEnv) (c : Config) : Bool :=
  env.connect1 c || (env.createdb c && env.connect2 c)

/-- The `for config in configs:` loop of `setup_database` (lines
430-454): connect; on failure try to create `student_db` and reconnect
once; on any failure move to the next candidate.  Returns the config the
returned `StudentManagementSystem` was built from. -/
def tryConfigs (env : BootEnv) : List Config → Option Config
  | [] => none
  | c :: rest =>
    if env.connect1 c then some c
    else if env.createdb c then
      if env.connect2 c then some c else tryConfigs env rest
    else tryConfigs env rest

/-- `setup_database` (student.py lines 410-496): the candidate loop, then
the interactively collected manual config, tried the same way (connect,
then create-database-and-retry); `None` when everything fails. -/
def setup_database (env : BootEnv) (manual : Config) : Option Config :=
  match tryConfigs env default_configs with
  | some c => some c
  | none =>
    if env.connect1 manual then some manual
    else if env.createdb manual then
      if env.connect2 manual then some manual else none
    else none

/-- A default config used only to make list indexing total. -/
def dfltConfig : Config := ⟨"", "", "", ""⟩

/-- Sample row used to instantiate theorems with hypotheses. -/
def sampleRow : Student := ⟨1, "Asha", 14, "8A", 88, 3, 3⟩

/-- Sample one-row table used to instantiate theorems with hypotheses. -/
def sampleDB : DB := ⟨[sampleRow], 2⟩

/-- Sample two-row table used to instantiate theorems with hypotheses. -/
def sampleDB2 : DB :=
  ⟨[⟨1, "Asha", 14, "8A", 88, 0, 0⟩, ⟨2, "Ben", 15, "8B", 72, 0, 0⟩], 3⟩

/-- Sample bootstrap environment: only the third hardcoded candidate can
connect, and database creation never succeeds. -/
def envW : BootEnv :=
  ⟨fun c => decide (c = ⟨"127.0.0.1", "student_db", "root", ""⟩),
   fun _ => false, fun _ => false⟩

end StudentMgmt

namespace StudentMgmt

/-! ### Helper lemmas -/

theorem charsLe_total :
    ∀ l₁ l₂ : List Char, charsLe l₁ l₂ = true ∨ charsLe l₂ l₁ = true
  | [], _ => Or.inl rfl
  | _ :: _, [] => Or.inr rfl
  | a :: as, b :: bs => by
    by_cases hab : a = b
    · subst hab
      rcases charsLe_total as bs with h | h
      · exact Or.inl (by simp [charsLe, h])
      · exact Or.inr (by simp [charsLe, h])
    · rcases lt_or_gt_of_ne hab with h | h
      · exact Or.inl (by simp [charsLe, hab, h])
      · exact Or.inr (by simp [charsLe, Ne.symm hab, h])

theorem charsLe_trans :
    ∀ l₁ l₂ l₃ : List Char, charsLe l₁ l₂ = true → charsLe l₂ l₃ = true →
      charsLe l₁ l₃ = true
  | [], _, _, _, _ => rfl
  | _ :: _, [], _, h₁, _ => by simp [charsLe] at h₁
  | _ :: _, _ :: _, [], _, h₂ => by simp [charsLe] at h₂
  | a :: as, b :: bs, c :: cs, h₁, h₂ => by
    by_cases hab : a = b
    · subst hab
      by_cases hac : a = c
      · subst hac
        simp only [charsLe, if_pos rfl] at h₁ h₂ ⊢
        exact charsLe_trans as bs cs h₁ h₂
      · simpa [charsLe, hac] using h₂
    · by_cases hbc : b = c
      · subst hbc
        simpa [charsLe, hab] using h₁
      · simp only [charsLe, if_neg hab, if_neg hbc, decide_eq_true_eq] at h₁ h₂
        have hac : a < c := lt_trans h₁ h₂
        simp [charsLe, ne_of_lt hac, hac]

theorem nameLe_total : ∀ a b : Student, nameLe a b ∨ nameLe b a :=
  fun a b => charsLe_total a.name.toList b.name.toList

theorem nameLe_trans :
    ∀ a b c : Student, nameLe a b → nameLe b c → nameLe a c :=
  fun _ _ _ h₁ h₂ => charsLe_trans _ _ _ h₁ h₂

/-- UPDATE/DELETE and the SELECTs never change a row's `id`. -/
theorem updRow_id (now : Nat) (fs : List FieldAsg) (sid : Nat)
    (s : Student) : (updRow now fs sid s).id = s.id := by
  unfold updRow
  split
  · have : ∀ (l : List FieldAsg) (t : Student), (l.foldl applyAsg t).id = t.id := by
      intro l
      induction l with
      | nil => intro t; rfl
      | cons a l ih =>
        intro t
        rw [List.foldl_cons, ih]
        cases a <;> rfl
    exact this fs s
  · rfl

/-- With unique ids, the count of rows matching an id held by a stored
row is exactly 1. -/
theorem countP_id_eq_one {l : List Student} {i : Nat}
    (hpw : l.Pairwise (fun a b => a.id ≠ b.id)) {r : Student} (hr : r ∈ l)
    (hid : r.id = i) : l.countP (fun s => s.id == i) = 1 := by
  induction l with
  | nil => cases hr
  | cons a t ih =>
    rcases List.pairwise_cons.mp hpw with ⟨hhead, htail⟩
    rw [List.countP_cons]
    rcases List.mem_cons.mp hr with heq | hrt
    · have h1 : (a.id == i) = true := beq_iff_eq.mpr (heq ▸ hid)
      have h0 : t.countP (fun s => s.id == i) = 0 := by
        rw [List.countP_eq_zero]
        intro s hs hsi
        exact hhead s hs
          ((heq ▸ hid : a.id = i).trans (beq_iff_eq.mp hsi).symm)
      rw [h0, h1]
      simp
    · have h1 : (a.id == i) = false := by
        rw [beq_eq_false_iff_ne]
        exact hid ▸ hhead r hrt
      rw [h1, ih htail hrt]
      simp

/-- With unique ids, selecting by the id of a stored row out of a mapped
table yields exactly the image of that row, provided the map preserves
ids. -/
theorem filter_map_id_single {l : List Student} {i : Nat}
    (hpw : l.Pairwise (fun a b => a.id ≠ b.id)) {r : Student} (hr : r ∈ l)
    (hid : r.id = i) (f : Student → Student)
    (hf : ∀ s, (f s).id = s.id) :
    (l.map f).filter (fun s => s.id == i) = [f r] := by
  induction l with
  | nil => cases hr
  | cons a t ih =>
    rcases List.pairwise_cons.mp hpw with ⟨hhead, htail⟩
    rw [List.map_cons, List.filter_cons]
    rcases List.mem_cons.mp hr with heq | hrt
    · have h1 : ((f a).id == i) = true :=
        beq_iff_eq.mpr ((hf a).trans (heq ▸ hid))
      rw [if_pos h1]
      have h0 : (t.map f).filter (fun s => s.id == i) = [] := by
        rw [List.filter_eq_nil_iff]
        intro s hs
        rcases List.mem_map.mp hs with ⟨u, hu, rfl⟩
        intro hui
        have hui' : u.id = i := (hf u).symm.trans (beq_iff_eq.mp hui)
        exact hhead u hu ((heq ▸ hid : a.id = i).trans hui'.symm)
      rw [h0, heq]
    · have h1 : ((f a).id == i) = false := by
        rw [beq_eq_false_iff_ne, hf]
        exact hid ▸ hhead r hrt
      rw [if_neg (by simp [h1]), ih htail hrt]

/-- A table in which no row carries the targeted id is untouched by the
UPDATE's row transformer. -/
theorem map_updRow_eq_self {l : List Student} {i : Nat}
    (h : ∀ r ∈ l, r.id ≠ i) (now : Nat) (fs : List FieldAsg) :
    l.map (updRow now fs i) = l := by
  have := List.map_congr_left (l := l) (f := updRow now fs i) (g := id)
    (fun a ha => by unfold updRow; rw [if_neg (h a ha)]; rfl)
  rw [this, List.map_id]

/-! ### Claims -/

/-- Claim C1, as stated, is false on the code: `add_student` performs no
field validation and never raises; a `None` argument makes the INSERT
violate NOT NULL, the resulting `Error` is caught, and the method
returns `None` — the caller sees an ordinary return, not a
`ValidationError`.  Concretely, creating with a missing name does not
signal `ValidationError`. -/
theorem C1_counterexample :
    (add_student ⟨[], 1⟩ true 0 none (some 14) (some "8A") (some 88)).2
      ≠ Except.error DBErr.validation :=
  fun h => Except.noConfusion h

/-- Claim C1 amended: for every create call in which at least one
required field is null/absent, no row is inserted and the store state is
unchanged, but no `ValidationError` is raised — the failure is caught
internally and the call returns `None` to the caller. -/
theorem C1_missing_field_no_insert (db : DB) (ok : Bool) (now : Nat)
    (name : Option String) (age : Option Int) (class_name : Option String)
    (marks : Option Rat)
    (h : name = none ∨ age = none ∨ class_name = none ∨ marks = none) :
    add_student db ok now name age class_name marks
      = (db, Except.ok none) := by
  cases ok <;> cases name <;> cases age <;> cases class_name <;>
    cases marks <;> simp_all [add_student]

/-- Witness for the amended C1 at a concrete input. -/
theorem C1_missing_field_witness :
    ((none : Option String) = none ∨ (some 14 : Option Int) = none ∨
      (some "8A" : Option String) = none ∨ (some 88 : Option Rat) = none) ∧
    add_student ⟨[], 1⟩ true 0 none (some 14) (some "8A") (some 88)
      = (⟨[], 1⟩, Except.ok none) :=
  ⟨Or.inl rfl,
   C1_missing_field_no_insert ⟨[], 1⟩ true 0 none (some 14) (some "8A")
     (some 88) (Or.inl rfl)⟩

/-- Claim C2, as stated, is false on the code: an underlying failure is
not signalled as a `StoreError` and is not distinguishable from the
normal empty result — `view_all_students` over a failing connection
returns the very value it returns over an empty table. -/
theorem C2_counterexample :
    (view_all_students ⟨[], 1⟩ false).2 ≠ Except.error DBErr.store ∧
    (view_all_students ⟨[], 1⟩ false).2
      = (view_all_students ⟨[], 1⟩ true).2 :=
  ⟨fun h => Except.noConfusion h, rfl⟩

/-- Claim C2 amended: every operation catches the underlying failure
internally (no retry, no raised error) and returns a fallback value —
`None` for create, 0 for update/delete/count, the empty list for
list/search — leaving the table unchanged; for every operation except
create this fallback coincides with the no-matching-rows result, so the
failure is not distinguishable from it. -/
theorem C2_store_failure_swallowed (db : DB) (now sid : Nat)
    (name : Option String) (age : Option Int) (class_name : Option String)
    (marks : Option Rat) (term : Option String) (qid : Option Nat) :
    add_student db false now name age class_name marks
      = (db, Except.ok none) ∧
    update_student db false now sid name age class_name marks
      = (db, Except.ok 0) ∧
    delete_student db false sid = (db, Except.ok 0) ∧
    view_all_students db false = (db, Except.ok []) ∧
    search_students db false term qid = (db, Except.ok []) ∧
    get_student_count db false = (db, Except.ok 0) := by
  refine ⟨?_, ?_, rfl, rfl, rfl, rfl⟩
  · cases name <;> cases age <;> cases class_name <;> cases marks <;> rfl
  · cases hb : (buildFields name age class_name marks).isEmpty <;>
      simp [update_student, hb]

/-- Claim C3: `update` with an empty set of fields (every optional
argument `None`) returns 0 for every table state and every connection
state, raising nothing and leaving the table untouched: the method
returns before building any query. -/
theorem C3_empty_update_noop (db : DB) (ok : Bool) (now sid : Nat) :
    update_student db ok now sid none none none none
      = (db, Except.ok 0) := rfl

/-- Claim C9: `close_connection` is idempotent — closing an already
closed or never-established connection is a no-op that raises nothing —
and after any call the connection is no longer live. -/
theorem C9_close_idempotent :
    (∀ s, close_connection (close_connection s) = close_connection s) ∧
    close_connection ConnState.noConn = ConnState.noConn ∧
    close_connection ConnState.closed = ConnState.closed ∧
    (∀ s, isLive (close_connection s) = false) := by
  refine ⟨fun s => ?_, rfl, rfl, fun s => ?_⟩ <;> cases s <;> rfl

/-- Claim C10: supplied-ness is truthiness for the text fields but
non-`None`-ness for the numeric ones: updating with `name = ""` and/or
`class = ""` alone executes nothing and returns 0 (so `update` can never
set a text field to the empty string), while `age = 0` and `marks = 0`
are written. -/
theorem C10_truthiness (db : DB) (ok : Bool) (now sid : Nat) (r : Student)
    (hr : r ∈ db.rows) (hid : r.id = sid) :
    update_student db ok now sid (some "") none none none
      = (db, Except.ok 0) ∧
    update_student db ok now sid none none (some "") none
      = (db, Except.ok 0) ∧
    update_student db ok now sid (some "") none (some "") none
      = (db, Except.ok 0) ∧
    { r with age := 0, updated_at := now } ∈
      (update_student db true now sid none (some 0) none none).1.rows ∧
    { r with marks := 0, updated_at := now } ∈
      (update_student db true now sid none none none (some 0)).1.rows := by
  refine ⟨rfl, rfl, rfl, ?_, ?_⟩
  · have h : updRow now [FieldAsg.fage 0] sid r
        = { r with age := 0, updated_at := now } := by
      unfold updRow
      rw [if_pos hid]
      rfl
    exact h ▸ List.mem_map_of_mem (updRow now [FieldAsg.fage 0] sid) hr
  · have h : updRow now [FieldAsg.fmarks 0] sid r
        = { r with marks := 0, updated_at := now } := by
      unfold updRow
      rw [if_pos hid]
      rfl
    exact h ▸ List.mem_map_of_mem (updRow now [FieldAsg.fmarks 0] sid) hr

/-- Witness for C10 at a concrete one-row table. -/
theorem C10_truthiness_witness :
    sampleRow ∈ sampleDB.rows ∧ sampleRow.id = 1 ∧
    (update_student sampleDB false 5 1 (some "") none none none
       = (sampleDB, Except.ok 0) ∧
     update_student sampleDB false 5 1 none none (some "") none
       = (sampleDB, Except.ok 0) ∧
     update_student sampleDB false 5 1 (some "") none (some "") none
       = (sampleDB, Except.ok 0) ∧
     { sampleRow with age := 0, updated_at := 5 } ∈
       (update_student sampleDB true 5 1 none (some 0) none none).1.rows ∧
     { sampleRow with marks := 0, updated_at := 5 } ∈
       (update_student sampleDB true 5 1 none none none (some 0)).1.rows) :=
  ⟨List.mem_singleton.mpr rfl, rfl,
   C10_truthiness sampleDB false 5 1 sampleRow
     (List.mem_singleton.mpr rfl) rfl⟩

/-- Claim C5: with a non-empty set of fields, `update` returns 1 exactly
when a row with the given id exists and 0 otherwise; on a non-existent
id it raises nothing and leaves the table entirely unchanged; and the
row count is invariant in every case. -/
theorem C5_update_match_count (db : DB) (now sid : Nat)
    (name : Option String) (age : Option Int) (class_name : Option String)
    (marks : Option Rat) (hwf : WF db)
    (hne : buildFields name age class_name marks ≠ []) :
    ((update_student db true now sid name age class_name marks).2
        = Except.ok 1 ↔ ∃ r ∈ db.rows, r.id = sid) ∧
    ((∀ r ∈ db.rows, r.id ≠ sid) →
      update_student db true now sid name age class_name marks
        = (db, Except.ok 0)) ∧
    (update_student db true now sid name age class_name
        marks).1.rows.length = db.rows.length := by
  obtain ⟨-, -, hpw⟩ := hwf
  have hb : (buildFields name age class_name marks).isEmpty = false :=
    List.isEmpty_eq_false.mpr hne
  have hu : update_student db true now sid name age class_name marks
      = (DB.mk (db.rows.map
            (updRow now (buildFields name age class_name marks) sid))
          db.next_id,
         Except.ok (db.rows.countP (fun s => s.id == sid))) := by
    unfold update_student
    simp [hb]
  refine ⟨?_, ?_, ?_⟩
  · rw [hu]
    constructor
    · intro h1
      by_contra hex
      push_neg at hex
      have h0 : db.rows.countP (fun s => s.id == sid) = 0 := by
        rw [List.countP_eq_zero]
        intro s hs hsi
        exact hex s hs (beq_iff_eq.mp hsi)
      rw [h0] at h1
      exact absurd (Except.ok.inj h1) (by decide)
    · rintro ⟨r, hr, hid⟩
      rw [countP_id_eq_one hpw hr hid]
  · intro hno
    rw [hu, map_updRow_eq_self hno]
    have h0 : db.rows.countP (fun s => s.id == sid) = 0 := by
      rw [List.countP_eq_zero]
      intro s hs hsi
      exact hno s hs (beq_iff_eq.mp hsi)
    rw [h0]
  · rw [hu]
    exact List.length_map _ _

/-- Witness for C5 at a concrete one-row table. -/
theorem C5_update_match_count_witness :
    WF sampleDB ∧ buildFields none none none (some 0) ≠ [] ∧
    (((update_student sampleDB true 5 1 none none none (some 0)).2
        = Except.ok 1 ↔ ∃ r ∈ sampleDB.rows, r.id = 1) ∧
     ((∀ r ∈ sampleDB.rows, r.id ≠ 1) →
       update_student sampleDB true 5 1 none none none (some 0)
         = (sampleDB, Except.ok 0)) ∧
     (update_student sampleDB true 5 1 none none none
         (some 0)).1.rows.length = sampleDB.rows.length) :=
  ⟨by decide, by decide,
   C5_update_match_count sampleDB 5 1 none none none (some 0)
     (by decide) (by decide)⟩

/-- Claim C4: updating only `marks` on an existing row reports one row
affected, and re-reading that row by id shows the new marks, every other
column unchanged, and `updated_at` strictly advanced (the schema's
`ON UPDATE CURRENT_TIMESTAMP`, with the operation happening at a strictly
later clock value `now`). -/
theorem C4_update_marks_frame (db : DB) (now sid : Nat) (X : Rat)
    (r : Student) (hwf : WF db) (hr : r ∈ db.rows) (hid : r.id = sid)
    (hsid : sid ≠ 0) (hclock : r.updated_at < now) :
    (update_student db true now sid none none none (some X)).2
      = Except.ok 1 ∧
    ∃ r', (search_students
        (update_student db true now sid none none none (some X)).1
        true none (some sid)).2 = Except.ok [r'] ∧
      r'.marks = X ∧ r'.id = r.id ∧ r'.name = r.name ∧ r'.age = r.age ∧
      r'.className = r.className ∧ r'.created_at = r.created_at ∧
      r.updated_at < r'.updated_at := by
  obtain ⟨-, -, hpw⟩ := hwf
  constructor
  · show Except.ok (db.rows.countP (fun s => s.id == sid)) = Except.ok 1
    rw [countP_id_eq_one hpw hr hid]
  · have hru : updRow now [FieldAsg.fmarks X] sid r
        = { r with marks := X, updated_at := now } := by
      unfold updRow
      rw [if_pos hid]
      rfl
    refine ⟨{ r with marks := X, updated_at := now },
      ?_, rfl, rfl, rfl, rfl, rfl, rfl, hclock⟩
    have htr : truthyNat (some sid) = true := by simp [truthyNat, hsid]
    show (search_students
        ⟨db.rows.map (updRow now [FieldAsg.fmarks X] sid), db.next_id⟩
        true none (some sid)).2 = _
    simp only [search_students, htr, if_true, truthyStr, Option.getD_some]
    rw [filter_map_id_single hpw hr hid _
      (fun s => updRow_id now [FieldAsg.fmarks X] sid s), hru]

/-- Witness for C4 at a concrete one-row table. -/
theorem C4_update_marks_frame_witness :
    WF sampleDB ∧ sampleRow ∈ sampleDB.rows ∧ sampleRow.id = 1 ∧
    (1 : Nat) ≠ 0 ∧ sampleRow.updated_at < 9 ∧
    ((update_student sampleDB true 9 1 none none none (some 50)).2
        = Except.ok 1 ∧
     ∃ r', (search_students
         (update_student sampleDB true 9 1 none none none (some 50)).1
         true none (some 1)).2 = Except.ok [r'] ∧
       r'.marks = 50 ∧ r'.id = sampleRow.id ∧ r'.name = sampleRow.name ∧
       r'.age = sampleRow.age ∧ r'.className = sampleRow.className ∧
       r'.created_at = sampleRow.created_at ∧
       sampleRow.updated_at < r'.updated_at) :=
  ⟨by decide, by decide, by decide, by decide, by decide,
   C4_update_marks_frame sampleDB 9 1 50 sampleRow (by decide) (by decide)
     (by decide) (by decide) (by decide)⟩

/-- Claim C6: for valid inputs, create followed by searchById on the
returned id yields exactly one record, carrying the created field values
and `created_at = updated_at` (both columns default to the insertion
time). -/
theorem C6_create_search_roundtrip (db : DB) (now : Nat) (n : String)
    (a : Int) (c : String) (m : Rat) (hwf : WF db) (hn : n ≠ "")
    (ha : 5 ≤ a ∧ a ≤ 25) (hc : c ≠ "") (hm : 0 ≤ m ∧ m ≤ 100) :
    ∃ newId,
      (add_student db true now (some n) (some a) (some c) (some m)).2
        = Except.ok (some newId) ∧
      (search_students
          (add_student db true now (some n) (some a) (some c) (some m)).1
          true none (some newId)).2
        = Except.ok [⟨newId, n, a, c, m, now, now⟩] := by
  obtain ⟨h1, hlt, -⟩ := hwf
  have hnz : db.next_id ≠ 0 := by omega
  refine ⟨db.next_id, rfl, ?_⟩
  have htr : truthyNat (some db.next_id) = true := by simp [truthyNat, hnz]
  show (search_students
      ⟨db.rows ++ [⟨db.next_id, n, a, c, m, now, now⟩], db.next_id + 1⟩
      true none (some db.next_id)).2 = _
  simp only [search_students, htr, if_true, Option.getD_some]
  rw [List.filter_append]
  have h0 : db.rows.filter (fun s => s.id == db.next_id) = [] := by
    rw [List.filter_eq_nil_iff]
    intro s hs hsi
    exact absurd (beq_iff_eq.mp hsi) (Nat.ne_of_lt (hlt s hs))
  rw [h0]
  simp

/-- Witness for C6 starting from the empty table. -/
theorem C6_create_search_roundtrip_witness :
    WF ⟨[], 1⟩ ∧ ("Asha" : String) ≠ "" ∧
    ((5 : Int) ≤ 14 ∧ (14 : Int) ≤ 25) ∧ ("8A" : String) ≠ "" ∧
    ((0 : Rat) ≤ 88 ∧ (88 : Rat) ≤ 100) ∧
    ∃ newId,
      (add_student ⟨[], 1⟩ true 7 (some "Asha") (some 14) (some "8A")
          (some 88)).2 = Except.ok (some newId) ∧
      (search_students
          (add_student ⟨[], 1⟩ true 7 (some "Asha") (some 14) (some "8A")
            (some 88)).1 true none (some newId)).2
        = Except.ok [⟨newId, "Asha", 14, "8A", 88, 7, 7⟩] :=
  ⟨by decide, by decide, by decide, by decide, by decide,
   C6_create_search_roundtrip ⟨[], 1⟩ 7 "Asha" 14 "8A" 88
     (by decide) (by decide) (by decide) (by decide) (by decide)⟩

/-- Claim C8: for a non-empty term, searching by name returns exactly the
rows whose name contains the term case-insensitively, in non-decreasing
name order, and the empty list — not an error — when nothing matches. -/
theorem C8_search_by_name (db : DB) (term : String) (hterm : term ≠ "") :
    ∃ l, (search_students db true (some term) none).2 = Except.ok l ∧
      l.Perm (db.rows.filter (fun s => strHasSub s.name term)) ∧
      List.Sorted nameLe l ∧
      ((∀ s ∈ db.rows, strHasSub s.name term = false) → l = []) := by
  have htr : truthyStr (some term) = true := by simp [truthyStr, hterm]
  refine ⟨sortByName (db.rows.filter (fun s => strHasSub s.name term)),
    ?_, ?_, ?_, ?_⟩
  · simp [search_students, htr, truthyNat]
  · exact List.perm_insertionSort nameLe _
  · haveI : IsTotal Student nameLe := ⟨nameLe_total⟩
    haveI : IsTrans Student nameLe := ⟨nameLe_trans⟩
    exact List.sorted_insertionSort nameLe _
  · intro hnone
    have hfil : db.rows.filter (fun s => strHasSub s.name term) = [] := by
      rw [List.filter_eq_nil_iff]
      intro s hs hss
      rw [hnone s hs] at hss
      exact Bool.noConfusion hss
    rw [hfil]
    rfl

/-- Witness for C8 on a two-row table and the term "as". -/
theorem C8_search_by_name_witness :
    ("as" : String) ≠ "" ∧
    ∃ l, (search_students sampleDB2 true (some "as") none).2
        = Except.ok l ∧
      l.Perm (sampleDB2.rows.filter (fun s => strHasSub s.name "as")) ∧
      List.Sorted nameLe l ∧
      ((∀ s ∈ sampleDB2.rows, strHasSub s.name "as" = false) → l = []) :=
  ⟨by decide, C8_search_by_name sampleDB2 "as" (by decide)⟩

/-- The candidate loop treats a candidate as handled in one step: it is
taken when its first connect works, or when creating the database and
reconnecting both work; otherwise the loop moves on. -/
theorem tryConfigs_cons (env : BootEnv) (c : Config) (rest : List Config) :
    tryConfigs env (c :: rest)
      = if succeedsB env c = true then some c else tryConfigs env rest := by
  cases h1 : env.connect1 c <;> cases h2 : env.createdb c <;>
    cases h3 : env.connect2 c <;> simp [tryConfigs, succeedsB, h1, h2, h3]

/-- The candidate loop fails exactly when every candidate fails. -/
theorem tryConfigs_none_iff (env : BootEnv) (cs : List Config) :
    tryConfigs env cs = none ↔ ∀ c ∈ cs, succeedsB env c = false := by
  induction cs with
  | nil => simp [tryConfigs]
  | cons c rest ih =>
    rw [tryConfigs_cons]
    by_cases h : succeedsB env c = true
    · rw [if_pos h]
      constructor
      · intro hn
        exact Option.noConfusion hn
      · intro hall
        rw [hall c (List.mem_cons_self c rest)] at h
        exact Bool.noConfusion h
    · have hf : succeedsB env c = false := by
        cases hc : succeedsB env c
        · rfl
        · exact absurd hc h
      rw [if_neg h, List.forall_mem_cons, ih]
      simp [hf]

/-- The candidate loop returns the first succeeding candidate. -/
theorem tryConfigs_first (env : BootEnv) :
    ∀ (cs : List Config) (i : Nat), i < cs.length →
      (∀ j, j < i → succeedsB env (cs.getD j dfltConfig) = false) →
      succeedsB env (cs.getD i dfltConfig) = true →
      tryConfigs env cs = some (cs.getD i dfltConfig)
  | [], i, hi, _, _ => absurd hi (by simp)
  | c :: rest, 0, _, _, hsucc => by
    rw [List.getD_cons_zero] at hsucc ⊢
    rw [tryConfigs_cons, if_pos hsucc]
  | c :: rest, i + 1, hi, hbefore, hsucc => by
    have h0 : succeedsB env c = false := by
      have := hbefore 0 (Nat.succ_pos i)
      rwa [List.getD_cons_zero] at this
    rw [List.getD_cons_succ] at hsucc ⊢
    rw [tryConfigs_cons, if_neg (by simp [h0])]
    exact tryConfigs_first env rest i (Nat.lt_of_succ_lt_succ hi)
      (fun j hj => by
        have := hbefore (j + 1) (Nat.succ_lt_succ hj)
        rwa [List.getD_cons_succ] at this) hsucc

/-- Claim C7: the bootstrap walks the ordered candidates, giving each
failing candidate a create-database-and-retry step, and returns the
first succeeding candidate (the earlier failures surface as nothing
fatal, only as moving on); it fails only when every hardcoded candidate
and the interactively collected fallback all fail. -/
theorem C7_bootstrap (env : BootEnv) (manual : Config) (cs : List Config)
    (i : Nat) (hi : i < cs.length)
    (hbefore : ∀ j, j < i → succeedsB env (cs.getD j dfltConfig) = false)
    (hsucc : succeedsB env (cs.getD i dfltConfig) = true) :
    tryConfigs env cs = some (cs.getD i dfltConfig) ∧
    (setup_database env manual = none ↔
      ((∀ c ∈ default_configs, succeedsB env c = false) ∧
        succeedsB env manual = false)) := by
  refine ⟨tryConfigs_first env cs i hi hbefore hsucc, ?_⟩
  unfold setup_database
  cases hd : tryConfigs env default_configs with
  | some c =>
    constructor
    · intro hn
      exact Option.noConfusion hn
    · rintro ⟨hall, -⟩
      rw [(tryConfigs_none_iff env default_configs).mpr hall] at hd
      exact Option.noConfusion hd
  | none =>
    have hall := (tryConfigs_none_iff env default_configs).mp hd
    have hall' : ∀ c ∈ default_configs, env.connect1 c = false ∧
        (env.createdb c = true → env.connect2 c = false) := by
      intro c hc
      have hcf := hall c hc
      simp [succeedsB] at hcf
      exact hcf
    cases h1 : env.connect1 manual <;> cases h2 : env.createdb manual <;>
      cases h3 : env.connect2 manual <;>
      simp [succeedsB, h1, h2, h3] <;> exact hall'

/-- Witness for C7: only the third hardcoded candidate succeeds, the
first two fail both their connect and their create-and-retry step. -/
theorem C7_bootstrap_witness :
    2 < default_configs.length ∧
    (∀ j, j < 2 → succeedsB envW (default_configs.getD j dfltConfig)
      = false) ∧
    succeedsB envW (default_configs.getD 2 dfltConfig) = true ∧
    (tryConfigs envW default_configs
        = some (default_configs.getD 2 dfltConfig) ∧
     (setup_database envW dfltConfig = none ↔
       ((∀ c ∈ default_configs, succeedsB envW c = false) ∧
         succeedsB envW dfltConfig = false))) :=
  ⟨by decide, by decide, by decide,
   C7_bootstrap envW dfltConfig default_configs 2 (by decide) (by decide)
     (by decide)⟩

end StudentMgmt
